import Mathlib

/-
Shallow embedding of the cosign `verify attestation` command
(src/cmd/cosign/cli/verify/verify_attestation.go).

The command's `Exec` method is modelled as a pure function from an explicit
configuration (`VerifyAttestationCommand`), an oracle `World` standing for
every external collaborator (environment variables, TUF metadata client,
registry, key providers, policy engines), and a list of image references,
to an `ExecResult`.  Every external call in the Go source corresponds to a
field of `World`; every `return err` corresponds to an `ExecError`
constructor.
-/

namespace Cosign

/-- Abstract identity of a distributed trust-root bundle
(`trusted_root.json` fetched via TUF, or loaded from a file path).  Its
payload is opaque to the command layer, so only an identity is kept. -/
structure TrustRoot where
  id : Nat
  deriving DecidableEq, Repr

/-- Source of the CT-log public keys loaded by `cosign.GetCTLogPubs`.
Modelled from the spec: `GetCTLogPubs` is not under src/; per the spec the
corroboration key material comes from "explicit file, environment-indicated
file, or a single distributed trust-root bundle", and the fetch function
reads the environment-indicated file when the variable is set and otherwise
the individual TUF targets. -/
inductive CTLogKeys where
  | fromEnvFile (path : String)
  | fromTufTargets
  deriving DecidableEq, Repr

/-- Source of the TSA certificates loaded by `cosign.GetTSACerts`.
Modelled from the spec: `GetTSACerts` is not under src/; per the spec the
TSA component comes from the explicit file when the chain path is given,
else the environment-indicated file, else the individual TUF targets. -/
inductive TSACertSource where
  | fromFile (path : String)
  | fromEnvFile (path : String)
  | fromTufTargets
  deriving DecidableEq, Repr

/-- A signature-verification capability, tagged by how it was obtained
(the four `co.SigVerifier`-setting branches of the `switch` in `Exec`). -/
inductive Verifier where
  | fromKeyRef (ref : String)
  | fromHardwareKey (slot : String)
  | fromCert (ref : String)
  | fromCertWithChain (ref chain : String)
  deriving DecidableEq, Repr

/-- An acceptable signer identity (OIDC issuer plus subject), the element
type of the list produced by `c.Identities()`. -/
structure Identity where
  issuer : String
  subject : String
  deriving DecidableEq, Repr

/-- A validation error produced by one of the two policy engines. -/
structure PolicyError where
  msg : String
  deriving DecidableEq, Repr

/-- One candidate attestation discovered for an image: the in-toto
statement's predicate type, the payload bytes handed to the policy
engines, and whether `policy.AttestationToPayloadJSON` can convert it. -/
structure Record where
  predType : String
  payload : String
  convertible : Bool
  deriving DecidableEq, Repr

/-- Every distinct `return err` site of `Exec` and its helpers. -/
inductive ExecError where
  | errHelp
  | keyParse
  | identitiesErr
  | clientOptsErr
  | loadTrustedRootErr
  | certRefWithNewBundle
  | certChainWithNewBundle
  | caRootsWithNewBundle
  | tsaPathWithNewBundle
  | missingTrustRoot
  | ctLogFetchErr
  | tsaFetchErr
  | rekorClientErr
  | rekorPubsErr
  | loadCertsErr
  | loadPubKeyErr
  | pivTokenErr
  | pivVerifierErr
  | certRefUnsupportedLate
  | certLoadErr
  | fulcioRootsErr
  | fulcioIntermediatesErr
  | validateCertErr
  | chainLoadErr
  | validateCertChainErr
  | sctReadErr
  | trustedRootPathRequiresNewBundle
  | parseRefErr (img : String)
  | verifyErr (img : String)
  | attConversionErr
  | invalidPolicyFormat
  | policyValidationFailed (count : Nat)
  | predicateTypeMismatch (requested : String) (observed : List String)
  deriving DecidableEq, Repr

/-- The command's option surface (struct `VerifyAttestationCommand` plus
the embedded option fields that `Exec` reads). -/
structure VerifyAttestationCommand where
  CheckClaims : Bool
  KeyRef : String
  CertRef : String
  CertGithubWorkflowTrigger : String
  CertGithubWorkflowSha : String
  CertGithubWorkflowName : String
  CertGithubWorkflowRepository : String
  CertGithubWorkflowRef : String
  CAIntermediates : String
  CARoots : String
  CertChain : String
  IgnoreSCT : Bool
  SCTRef : String
  Sk : Bool
  Slot : String
  RekorURL : String
  PredicateType : String
  Policies : List String
  LocalImage : Bool
  Offline : Bool
  TSACertChainPath : String
  IgnoreTlog : Bool
  MaxWorkers : Nat
  UseSignedTimestamps : Bool
  NewBundleFormat : Bool
  TrustedRootPath : String
  deriving DecidableEq, Repr

/-- The `cosign.CheckOpts` value assembled by `Exec` (the fields the
command writes). -/
structure CheckOpts where
  CertGithubWorkflowTrigger : String
  CertGithubWorkflowSha : String
  CertGithubWorkflowName : String
  CertGithubWorkflowRepository : String
  CertGithubWorkflowRef : String
  IgnoreSCT : Bool
  Identities : List Identity
  Offline : Bool
  IgnoreTlog : Bool
  MaxWorkers : Nat
  UseSignedTimestamps : Bool
  NewBundleFormat : Bool
  TrustedMaterial : Option TrustRoot
  ClaimVerifier : Bool
  CTLogPubKeys : Option CTLogKeys
  TSACerts : Option TSACertSource
  RekorClientSet : Bool
  RekorPubKeys : Bool
  RootCertsLoaded : Bool
  SigVerifier : Option Verifier
  SCT : Option String
  deriving DecidableEq, Repr

/-- Oracle for every external collaborator consulted by `Exec`: the four
environment variables recognised by the trust material resolver, the TUF
client, option/identity resolution, key providers, the Fulcio/Rekor/TSA
fetchers, the registry verification calls, and the two policy engines.
Each fallible call is an `Option`/`Bool` field: `none`/`false` means that
call fails. -/
structure World where
  envCTLogPubKeyFile : String
  envRootFile : String
  envRekorPublicKey : String
  envTSACertificateFile : String
  tufTrustedRoot : Option TrustRoot
  identitiesResult : Option (List Identity)
  clientOptsOk : Bool
  trustedRootFromPath : String → Option TrustRoot
  ctLogFetchOk : Bool
  tsaFetchOk : Bool
  rekorClientOk : Bool
  rekorPubsOk : Bool
  loadCertsOk : Bool
  pubKeyOk : String → Bool
  pivOk : Bool
  pivVerifierOk : Bool
  certLoadOk : String → Bool
  fulcioRootsOk : Bool
  fulcioIntermediatesOk : Bool
  validateCertOk : Bool
  chainLoadOk : String → Bool
  validateChainOk : Bool
  sctReadOk : String → Bool
  parseRefOk : String → Bool
  verifyLocalAtt : CheckOpts → String → Option (List Record × Bool)
  verifyAtt : CheckOpts → String → Option (List Record × Bool)
  cueValidate : List String → String → Option PolicyError
  regoValidate : List String → String → List PolicyError

/-- Per-image outcome on success: the accepted records, the
bundle-verified flag returned by the artifact source, and the
fulcio-verified flag computed by `Exec`. -/
structure ImageResult where
  checked : List Record
  bundleVerified : Bool
  fulcioVerified : Bool
  deriving DecidableEq, Repr

/-- Result of a whole invocation: either an abort before the image loop
(configuration phase), or the loop's emitted per-image results together
with the error that aborted the loop, if any. -/
inductive ExecResult where
  | configError (e : ExecError)
  | run (results : List ImageResult) (aborted : Option ExecError)
  deriving DecidableEq, Repr

/-- Modelled from the spec: `options.NOf` is not under src/.  It counts
how many of the given options are set (non-default); the spec describes it
as the mutual-exclusion counter ("selecting both is a configuration
error"). -/
def NOf (xs : List Bool) : Nat := (xs.filter (fun b => b)).length

/-- True when any of the four environment-variable overrides recognised by
the trust material resolver is present. -/
def anyEnvOverride (w : World) : Bool :=
  w.envCTLogPubKeyFile != "" || w.envRootFile != "" ||
    w.envRekorPublicKey != "" || w.envTSACertificateFile != ""

/-- The count `options.NOf(c.CertChain, c.CARoots, c.CAIntermediates,
c.TSACertChainPath)` used at lines 107 and 142. -/
def explicitPathsCount (c : VerifyAttestationCommand) : Nat :=
  NOf [c.CertChain != "", c.CARoots != "", c.CAIntermediates != "", c.TSACertChainPath != ""]

/-- The condition of lines 107-111: any explicit path override or any
environment override suppresses the fetched trusted root entirely. -/
def suppressBundle (c : VerifyAttestationCommand) (w : World) : Bool :=
  decide (0 < explicitPathsCount c) || anyEnvOverride w

/-- The trusted material after lines 102-115: the TUF-fetched bundle
unless any explicit or environment override is present. -/
def resolvedTrustedMaterial (c : VerifyAttestationCommand) (w : World) : Option TrustRoot :=
  if suppressBundle c w then none else w.tufTrustedRoot

/-- Modelled from the spec: `shouldVerifySCT` is not under src/.  Per the
spec, the SCT check is skipped when it is explicitly disabled or when
verifying by explicit key or hardware key (no certificate present). -/
def shouldVerifySCT (ignoreSCT : Bool) (keyRef : String) (sk : Bool) : Bool :=
  !ignoreSCT && keyRef == "" && !sk

/-- Modelled from the spec: `keylessVerification` is not under src/.  Per
the spec, verification is keyless (certificate-based) exactly when neither
an explicit key nor a hardware key is selected. -/
def keylessVerification (keyRef : String) (sk : Bool) : Bool :=
  keyRef == "" && !sk

/-- Modelled from the spec: `cosign.GetCTLogPubs` is not under src/.  It
fetches the CT-log public keys from the environment-indicated file when
set, else from the individual TUF targets; the fetch may fail. -/
def GetCTLogPubs (w : World) : Option CTLogKeys :=
  if w.ctLogFetchOk then
    some (if w.envCTLogPubKeyFile != "" then .fromEnvFile w.envCTLogPubKeyFile else .fromTufTargets)
  else none

/-- Modelled from the spec: `cosign.GetTSACerts` is not under src/.  It
loads the TSA certificates from the explicit chain path when given, else
from the environment-indicated file, else from the individual TUF targets;
the fetch may fail. -/
def GetTSACerts (w : World) (path : String) : Option TSACertSource :=
  if w.tsaFetchOk then
    some (if path != "" then .fromFile path
          else if w.envTSACertificateFile != "" then .fromEnvFile w.envTSACertificateFile
          else .fromTufTargets)
  else none

/-- The helper of lines 384-398: with the new bundle format, the first
forbidden explicit override (certificate, chain, CA roots/intermediates,
TSA chain path) yields the error naming it. -/
def checkSigstoreBundleUnsupportedOptions (c : VerifyAttestationCommand) : Option ExecError :=
  if c.CertRef != "" then some .certRefWithNewBundle
  else if c.CertChain != "" then some .certChainWithNewBundle
  else if c.CARoots != "" || c.CAIntermediates != "" then some .caRootsWithNewBundle
  else if c.TSACertChainPath != "" then some .tsaPathWithNewBundle
  else none

/-- Lines 89-95: the acceptable-identity set is resolved only when no
explicit key reference is given. -/
def identitiesStep (c : VerifyAttestationCommand) (w : World) : Except ExecError (List Identity) :=
  if c.KeyRef = "" then
    match w.identitiesResult with
    | some ids => .ok ids
    | none => .error .identitiesErr
  else .ok []

/-- The `cosign.CheckOpts` literal of lines 117-135. -/
def initialOpts (c : VerifyAttestationCommand) (w : World) (ids : List Identity) : CheckOpts :=
  { CertGithubWorkflowTrigger := c.CertGithubWorkflowTrigger
    CertGithubWorkflowSha := c.CertGithubWorkflowSha
    CertGithubWorkflowName := c.CertGithubWorkflowName
    CertGithubWorkflowRepository := c.CertGithubWorkflowRepository
    CertGithubWorkflowRef := c.CertGithubWorkflowRef
    IgnoreSCT := c.IgnoreSCT
    Identities := ids
    Offline := c.Offline
    IgnoreTlog := c.IgnoreTlog
    MaxWorkers := c.MaxWorkers
    UseSignedTimestamps := c.TSACertChainPath != "" || c.UseSignedTimestamps
    NewBundleFormat := c.NewBundleFormat
    TrustedMaterial := resolvedTrustedMaterial c w
    ClaimVerifier := c.CheckClaims
    CTLogPubKeys := none
    TSACerts := none
    RekorClientSet := false
    RekorPubKeys := false
    RootCertsLoaded := false
    SigVerifier := none
    SCT := none }

/-- Lines 137-151: an explicit trusted-root path is loaded (fatal on
failure); otherwise, when no override is present, the TUF root is fetched
again (failure is only a warning, leaving the material as fetched). -/
def trustedRootStage (c : VerifyAttestationCommand) (w : World) (co : CheckOpts) :
    Except ExecError CheckOpts :=
  if c.TrustedRootPath != "" then
    match w.trustedRootFromPath c.TrustedRootPath with
    | some tr => .ok { co with TrustedMaterial := some tr }
    | none => .error .loadTrustedRootErr
  else if !(suppressBundle c w) then .ok { co with TrustedMaterial := w.tufTrustedRoot }
  else .ok co

/-- Lines 153-160: with the new bundle format, first the forbidden-option
check, then the requirement of a non-null trust root. -/
def bundleFormatStage (c : VerifyAttestationCommand) (co : CheckOpts) :
    Except ExecError CheckOpts :=
  if c.NewBundleFormat then
    match checkSigstoreBundleUnsupportedOptions c with
    | some e => .error e
    | none => if co.TrustedMaterial.isNone then .error .missingTrustRoot else .ok co
  else .ok co

/-- Lines 162-168: CT-log public keys are fetched individually only when
no trusted material remains, the SCT check applies, and the new bundle
format is off. -/
def ctLogStage (c : VerifyAttestationCommand) (w : World) (co : CheckOpts) :
    Except ExecError CheckOpts :=
  if co.TrustedMaterial.isNone && shouldVerifySCT c.IgnoreSCT c.KeyRef c.Sk && !c.NewBundleFormat then
    match GetCTLogPubs w with
    | some ks => .ok { co with CTLogPubKeys := some ks }
    | none => .error .ctLogFetchErr
  else .ok co

/-- Lines 170-179: TSA certificates are loaded only when signed timestamps
are in use, no trusted material remains, and the new bundle format is
off. -/
def tsaStage (c : VerifyAttestationCommand) (w : World) (co : CheckOpts) :
    Except ExecError CheckOpts :=
  if co.UseSignedTimestamps && co.TrustedMaterial.isNone && !c.NewBundleFormat then
    match GetTSACerts w c.TSACertChainPath with
    | some ts => .ok { co with TSACerts := some ts }
    | none => .error .tsaFetchErr
  else .ok co

/-- Lines 181-197: unless the transparency log is ignored or the new
bundle format is on, an explicit Rekor URL yields a client, and with no
trusted material the Rekor public keys are fetched. -/
def tlogStage (c : VerifyAttestationCommand) (w : World) (co : CheckOpts) :
    Except ExecError CheckOpts :=
  if !c.IgnoreTlog && !co.NewBundleFormat then
    match (if c.RekorURL != "" then
             (if w.rekorClientOk then Except.ok { co with RekorClientSet := true }
              else Except.error ExecError.rekorClientErr)
           else Except.ok co) with
    | .error e => .error e
    | .ok coA =>
      if coA.TrustedMaterial.isNone then
        if w.rekorPubsOk then .ok { coA with RekorPubKeys := true } else .error .rekorPubsErr
      else .ok coA
  else .ok co

/-- Lines 199-203: with no trusted material and keyless verification, the
certificate material for keyless verification is loaded (fatal on
failure). -/
def keylessCertsStage (c : VerifyAttestationCommand) (w : World) (co : CheckOpts) :
    Except ExecError CheckOpts :=
  if co.TrustedMaterial.isNone && keylessVerification c.KeyRef c.Sk then
    if w.loadCertsOk then .ok { co with RootCertsLoaded := true } else .error .loadCertsErr
  else .ok co

/-- Lines 84-203 of `Exec`: the configuration phase up to (excluding) the
verifier `switch`: mutual-exclusion check, identity resolution, client
options, trusted material resolution and the corroboration-key stages. -/
def resolveTrustAndCorroboration (c : VerifyAttestationCommand) (w : World) :
    Except ExecError CheckOpts :=
  if NOf [c.KeyRef != "", c.Sk] > 1 then .error .keyParse
  else
    match identitiesStep c w with
    | .error e => .error e
    | .ok ids =>
      if !w.clientOptsOk then .error .clientOptsErr
      else
        match trustedRootStage c w (initialOpts c w ids) with
        | .error e => .error e
        | .ok co1 =>
          match bundleFormatStage c co1 with
          | .error e => .error e
          | .ok co2 =>
            match ctLogStage c w co2 with
            | .error e => .error e
            | .ok co3 =>
              match tsaStage c w co3 with
              | .error e => .error e
              | .ok co4 =>
                match tlogStage c w co4 with
                | .error e => .error e
                | .ok co5 => keylessCertsStage c w co5

/-- Lines 264-270 (applied in the certificate branch): read the SCT proof
from the given file, fatal on failure. -/
def readSct (c : VerifyAttestationCommand) (w : World) : Except ExecError (Option String) :=
  if c.SCTRef = "" then .ok none
  else if w.sctReadOk c.SCTRef then .ok (some c.SCTRef) else .error .sctReadErr

/-- Lines 228-270: the `case c.CertRef != ""` branch of the verifier
switch, returning the verifier, the SCT read from file, and whether the
Fulcio roots were loaded. -/
def certBranch (c : VerifyAttestationCommand) (w : World) (tm : Option TrustRoot) :
    Except ExecError (Verifier × Option String × Bool) :=
  if c.NewBundleFormat then .error .certRefUnsupportedLate
  else if w.certLoadOk c.CertRef then
    if c.CertChain = "" then
      match (if tm.isNone then
               (if w.fulcioRootsOk then
                  (if w.fulcioIntermediatesOk then Except.ok true
                   else Except.error ExecError.fulcioIntermediatesErr)
                else Except.error ExecError.fulcioRootsErr)
             else Except.ok false) with
      | .error e => .error e
      | .ok rootsLoaded =>
        if w.validateCertOk then
          match readSct c w with
          | .ok sct => .ok (.fromCert c.CertRef, sct, rootsLoaded)
          | .error e => .error e
        else .error .validateCertErr
    else
      if w.chainLoadOk c.CertChain then
        if w.validateChainOk then
          match readSct c w with
          | .ok sct => .ok (.fromCertWithChain c.CertRef c.CertChain, sct, false)
          | .error e => .error e
        else .error .validateCertChainErr
      else .error .chainLoadErr
  else .error .certLoadErr

/-- Lines 205-282: the verifier `switch`, in source branch order (explicit
key, hardware key, certificate reference, trusted-root path, CA roots /
default: no verifier). -/
def resolveVerifier (c : VerifyAttestationCommand) (w : World) (tm : Option TrustRoot) :
    Except ExecError (Option Verifier × Option String × Bool) :=
  if c.KeyRef != "" then
    if w.pubKeyOk c.KeyRef then .ok (some (.fromKeyRef c.KeyRef), none, false)
    else .error .loadPubKeyErr
  else if c.Sk then
    if w.pivOk then
      if w.pivVerifierOk then .ok (some (.fromHardwareKey c.Slot), none, false)
      else .error .pivVerifierErr
    else .error .pivTokenErr
  else if c.CertRef != "" then
    match certBranch c w tm with
    | .ok (vf, sct, fl) => .ok (some vf, sct, fl)
    | .error e => .error e
  else if c.TrustedRootPath != "" then
    if c.NewBundleFormat then .ok (none, none, false)
    else .error .trustedRootPathRequiresNewBundle
  else .ok (none, none, false)

/-- Line 289: `fulcioVerified := (co.SigVerifier == nil)`. -/
def fulcioVerifiedFlag (co : CheckOpts) : Bool := co.SigVerifier.isNone

/-- Lines 84-289: the whole configuration phase, producing the final
`CheckOpts` used by the image loop. -/
def buildCheckOpts (c : VerifyAttestationCommand) (w : World) : Except ExecError CheckOpts :=
  match resolveTrustAndCorroboration c w with
  | .error e => .error e
  | .ok co =>
    match resolveVerifier c w co.TrustedMaterial with
    | .error e => .error e
    | .ok (v, sct, fulcioLoaded) =>
      .ok { co with SigVerifier := v, SCT := sct,
                    RootCertsLoaded := co.RootCertsLoaded || fulcioLoaded }

/-- Helper for `filepathExt`: the final slash-separated element of a
path. -/
def lastComponentAux (acc : List Char) : List Char → List Char
  | [] => acc.reverse
  | ch :: cs => if ch = '/' then lastComponentAux [] cs else lastComponentAux (ch :: acc) cs

/-- Go's `filepath.Ext`: the suffix beginning at the final dot in the
final element of the path, empty if there is no dot. -/
def filepathExt (p : String) : String :=
  let base := lastComponentAux [] p.toList
  let r := base.reverse
  if r.contains '.' then String.mk ('.' :: ((r.takeWhile (fun ch => ch != '.')).reverse))
  else ""

/-- Lines 312-323: partition the policy paths by extension into the CUE
set and the Rego set; any other extension is fatal. -/
def partitionPolicies : List String → Except ExecError (List String × List String)
  | [] => .ok ([], [])
  | p :: rest =>
    if filepathExt p = ".rego" then
      match partitionPolicies rest with
      | .ok (cs, rs) => .ok (cs, p :: rs)
      | .error e => .error e
    else if filepathExt p = ".cue" then
      match partitionPolicies rest with
      | .ok (cs, rs) => .ok (p :: cs, rs)
      | .error e => .error e
    else .error .invalidPolicyFormat

/-- Modelled from the spec: `policy.AttestationToPayloadJSON` is not under
src/.  Per the spec, it extracts the record's in-toto statement and
returns the payload bytes when the statement's predicate type matches the
requested one (empty payload otherwise) together with the observed
predicate type; conversion may fail. -/
def AttestationToPayloadJSON (predicateType : String) (r : Record) :
    Option (String × String) :=
  if r.convertible then
    some ((if r.predType == predicateType then r.payload else ""), r.predType)
  else none

/-- Lines 325-361: the per-record loop of the policy gate: convert each
verified record (fatal on conversion failure), record its predicate type,
skip non-matching payloads, run the CUE set (one collected error
short-circuits to the next record), then the Rego set (collected errors),
and otherwise accept the record. -/
def processRecords (w : World) (requested : String) (cues regos : List String) :
    List Record → Except ExecError (List Record × List PolicyError × List String)
  | [] => .ok ([], [], [])
  | r :: rest =>
    match AttestationToPayloadJSON requested r with
    | none => .error .attConversionErr
    | some (payload, gotType) =>
      match processRecords w requested cues regos rest with
      | .error e => .error e
      | .ok (checked, ve, types) =>
        if payload.length = 0 then .ok (checked, ve, gotType :: types)
        else
          match (if cues.isEmpty then none else w.cueValidate cues payload) with
          | some cueErr => .ok (checked, cueErr :: ve, gotType :: types)
          | none =>
            let regoErrs := if regos.isEmpty then [] else w.regoValidate regos payload
            if regoErrs.isEmpty then .ok (r :: checked, ve, gotType :: types)
            else .ok (checked, regoErrs ++ ve, gotType :: types)

/-- Lines 291-379: the body of the image loop for one reference: fetch and
verify the attestations (local or via the registry), partition the
policies, run the policy gate, and report collected validation errors or a
predicate-type mismatch. -/
def verifyOneImage (c : VerifyAttestationCommand) (w : World) (co : CheckOpts) (fv : Bool)
    (img : String) : Except ExecError ImageResult :=
  match (if c.LocalImage then
           match w.verifyLocalAtt co img with
           | some vb => Except.ok vb
           | none => Except.error (ExecError.verifyErr img)
         else
           if w.parseRefOk img then
             match w.verifyAtt co img with
             | some vb => Except.ok vb
             | none => Except.error (ExecError.verifyErr img)
           else Except.error (ExecError.parseRefErr img)) with
  | .error e => .error e
  | .ok (verified, bundleVerified) =>
    match partitionPolicies c.Policies with
    | .error e => .error e
    | .ok (cuePolicies, regoPolicies) =>
      match processRecords w c.PredicateType cuePolicies regoPolicies verified with
      | .error e => .error e
      | .ok (checked, validationErrors, checkedPredicateTypes) =>
        if validationErrors.length > 0 then
          .error (.policyValidationFailed validationErrors.length)
        else if checked.length = 0 then
          .error (.predicateTypeMismatch c.PredicateType checkedPredicateTypes)
        else .ok ⟨checked, bundleVerified, fv⟩

/-- The `for _, imageRef := range images` loop: each image is processed in
order; the first failure aborts the loop, keeping the results already
emitted. -/
def runImages (f : String → Except ExecError ImageResult) :
    List String → List ImageResult × Option ExecError
  | [] => ([], none)
  | img :: rest =>
    match f img with
    | .error e => ([], some e)
    | .ok r => let p := runImages f rest; (r :: p.1, p.2)

/-- The whole `Exec` method (lines 79-382). -/
def Exec (c : VerifyAttestationCommand) (w : World) (images : List String) : ExecResult :=
  if images.isEmpty then .configError .errHelp
  else
    match buildCheckOpts c w with
    | .error e => .configError e
    | .ok co =>
      let p := runImages (verifyOneImage c w co (fulcioVerifiedFlag co)) images
      .run p.1 p.2

/-- Modelled from the spec: the anchor-kind taxonomy of the data model
section, derived from the configuration in the selection order of the
verifier switch.  Used only to state the claim that `fulcioVerified`
tracks certificate-based anchors. -/
inductive AnchorKind where
  | explicitKey
  | hardwareKey
  | explicitCertificate
  | explicitCertificateWithChain
  | certificateAuthorityRoots
  | distributedTrustRoot
  deriving DecidableEq, Repr

/-- Modelled from the spec: which anchor kind a configuration selects. -/
def anchorKindOf (c : VerifyAttestationCommand) : AnchorKind :=
  if c.KeyRef != "" then .explicitKey
  else if c.Sk then .hardwareKey
  else if c.CertRef != "" then
    (if c.CertChain != "" then .explicitCertificateWithChain else .explicitCertificate)
  else if c.CARoots != "" then .certificateAuthorityRoots
  else .distributedTrustRoot

/-- Modelled from the spec: an anchor is certificate-based exactly when it
is not an explicit key or hardware key. -/
def certificateBased : AnchorKind → Bool
  | .explicitKey => false
  | .hardwareKey => false
  | _ => true

/-- The validation errors one record contributes in the policy gate: none
when it does not match the requested predicate type; the single CUE error
when the CUE set rejects it (the Rego set is then not consulted); else the
Rego set's errors. -/
def recordErrors (w : World) (requested : String) (cues regos : List String) (r : Record) :
    List PolicyError :=
  if !(r.predType == requested) then []
  else if r.payload.length = 0 then []
  else
    match (if cues.isEmpty then none else w.cueValidate cues r.payload) with
    | some cueErr => [cueErr]
    | none => if regos.isEmpty then [] else w.regoValidate regos r.payload

/-- Whether the policy gate accepts one record: it matches the requested
predicate type and passes every configured policy of both sets. -/
def recordAccepted (w : World) (requested : String) (cues regos : List String) (r : Record) :
    Bool :=
  (r.predType == requested) && (r.payload.length != 0) &&
    (match (if cues.isEmpty then none else w.cueValidate cues r.payload) with
     | some _ => false
     | none => (if regos.isEmpty then [] else w.regoValidate regos r.payload).isEmpty)

/-- A configuration with every option at its zero value (keyless
verification with all defaults). -/
def defaultCmd : VerifyAttestationCommand :=
  { CheckClaims := false, KeyRef := "", CertRef := ""
    CertGithubWorkflowTrigger := "", CertGithubWorkflowSha := ""
    CertGithubWorkflowName := "", CertGithubWorkflowRepository := ""
    CertGithubWorkflowRef := "", CAIntermediates := "", CARoots := ""
    CertChain := "", IgnoreSCT := false, SCTRef := "", Sk := false, Slot := ""
    RekorURL := "", PredicateType := "", Policies := [], LocalImage := false
    Offline := false, TSACertChainPath := "", IgnoreTlog := false
    MaxWorkers := 10, UseSignedTimestamps := false, NewBundleFormat := false
    TrustedRootPath := "" }

/-- A world in which every external call succeeds, the TUF trusted root is
available, no environment override is present, no image has attestations,
and both policy engines accept everything. -/
def okWorld : World :=
  { envCTLogPubKeyFile := "", envRootFile := "", envRekorPublicKey := ""
    envTSACertificateFile := "", tufTrustedRoot := some ⟨0⟩
    identitiesResult := some [], clientOptsOk := true
    trustedRootFromPath := fun _ => some ⟨1⟩
    ctLogFetchOk := true, tsaFetchOk := true, rekorClientOk := true
    rekorPubsOk := true, loadCertsOk := true, pubKeyOk := fun _ => true
    pivOk := true, pivVerifierOk := true, certLoadOk := fun _ => true
    fulcioRootsOk := true, fulcioIntermediatesOk := true
    validateCertOk := true, chainLoadOk := fun _ => true
    validateChainOk := true, sctReadOk := fun _ => true
    parseRefOk := fun _ => true, verifyLocalAtt := fun _ _ => none
    verifyAtt := fun _ _ => none, cueValidate := fun _ _ => none
    regoValidate := fun _ _ => [] }

/-- Whether an unsupported-option error names an option that is actually
set in the configuration. -/
def namesOffendingOption (e : ExecError) (c : VerifyAttestationCommand) : Prop :=
  match e with
  | .certRefWithNewBundle => c.CertRef ≠ ""
  | .certChainWithNewBundle => c.CertChain ≠ ""
  | .caRootsWithNewBundle => c.CARoots ≠ "" ∨ c.CAIntermediates ≠ ""
  | .tsaPathWithNewBundle => c.TSACertChainPath ≠ ""
  | _ => False

/-- A record with predicate type `t` and a non-empty payload. -/
def recT : Record := ⟨"t", "p", true⟩

/-- Concrete input for the bundle-suppression scenario: defaults plus an
explicit TSA chain path. -/
def c1Cmd : VerifyAttestationCommand := { defaultCmd with TSACertChainPath := "tsa.pem" }

/-- Concrete local-image configuration requesting predicate type `t`. -/
def c2Cmd : VerifyAttestationCommand := { defaultCmd with LocalImage := true, PredicateType := "t" }

/-- A world in which image `bad` fails verification and every other image
yields one record of predicate type `t`. -/
def c2World : World :=
  { okWorld with
      verifyLocalAtt := fun _ img => if img = "bad" then none else some ([recT], true) }

/-- The `CheckOpts` that `buildCheckOpts` produces for `c2Cmd` in
`c2World` (bundle available, no overrides, keyless). -/
def c2Co : CheckOpts :=
  { CertGithubWorkflowTrigger := "", CertGithubWorkflowSha := ""
    CertGithubWorkflowName := "", CertGithubWorkflowRepository := ""
    CertGithubWorkflowRef := "", IgnoreSCT := false, Identities := []
    Offline := false, IgnoreTlog := false, MaxWorkers := 10
    UseSignedTimestamps := false, NewBundleFormat := false
    TrustedMaterial := some ⟨0⟩, ClaimVerifier := false, CTLogPubKeys := none
    TSACerts := none, RekorClientSet := false, RekorPubKeys := false
    RootCertsLoaded := false, SigVerifier := none, SCT := none }

/-- Concrete configuration with one CUE and one Rego policy. -/
def c3Cmd : VerifyAttestationCommand := { c2Cmd with Policies := ["a.cue", "b.rego"] }

/-- A world in which both policy engines reject every payload. -/
def c3World : World :=
  { c2World with cueValidate := fun _ _ => some ⟨"cue violation"⟩
                 regoValidate := fun _ _ => [⟨"rego violation"⟩] }

/-- Concrete configuration selecting both an explicit key and a hardware
key. -/
def c4Cmd : VerifyAttestationCommand := { defaultCmd with KeyRef := "cosign.pub", Sk := true }

/-- Concrete configuration requesting predicate type `c`. -/
def c5Cmd : VerifyAttestationCommand := { c2Cmd with PredicateType := "c" }

/-- A world in which every image yields records of predicate types `a`
and `b`. -/
def c5World : World :=
  { okWorld with
      verifyLocalAtt := fun _ _ => some ([⟨"a", "pa", true⟩, ⟨"b", "pb", true⟩], true) }

/-- Concrete configuration combining the new bundle format with an
explicit certificate chain (a forbidden override). -/
def c6Cmd : VerifyAttestationCommand :=
  { defaultCmd with NewBundleFormat := true, CertChain := "chain.pem" }

/-- Concrete new-bundle-format configuration with no overrides. -/
def c6wCmd : VerifyAttestationCommand := { defaultCmd with NewBundleFormat := true }

/-- A world in which the TUF trusted-root fetch fails. -/
def c6wWorld : World := { okWorld with tufTrustedRoot := none }

/-- Concrete configuration with a policy of unrecognized extension. -/
def c8Cmd : VerifyAttestationCommand := { c2Cmd with Policies := ["policy.yaml"] }

/-- Concrete configuration selecting a certificate-reference anchor. -/
def c9Cmd : VerifyAttestationCommand := { c2Cmd with CertRef := "cert.pem" }

/-- Concrete configuration with an explicit key reference only. -/
def c10Cmd : VerifyAttestationCommand := { defaultCmd with KeyRef := "cosign.pub" }

theorem exec_configError_of_resolveTrust (c : VerifyAttestationCommand) (w : World)
    (img : String) (imgs : List String) (e : ExecError)
    (h : resolveTrustAndCorroboration c w = .error e) :
    Exec c w (img :: imgs) = .configError e := by
  simp [Exec, buildCheckOpts, h]

theorem trustedRootStage_identities {c : VerifyAttestationCommand} {w : World}
    {co co2 : CheckOpts} (h : trustedRootStage c w co = .ok co2) :
    co2.Identities = co.Identities := by
  unfold trustedRootStage at h
  split at h
  · split at h
    · injection h with h2; subst h2; rfl
    · exact Except.noConfusion h
  · split at h
    · injection h with h2; subst h2; rfl
    · injection h with h2; subst h2; rfl

theorem bundleFormatStage_identities {c : VerifyAttestationCommand}
    {co co2 : CheckOpts} (h : bundleFormatStage c co = .ok co2) :
    co2.Identities = co.Identities := by
  unfold bundleFormatStage at h
  split at h
  · split at h
    · exact Except.noConfusion h
    · split at h
      · exact Except.noConfusion h
      · injection h with h2; subst h2; rfl
  · injection h with h2; subst h2; rfl

theorem ctLogStage_identities {c : VerifyAttestationCommand} {w : World}
    {co co2 : CheckOpts} (h : ctLogStage c w co = .ok co2) :
    co2.Identities = co.Identities := by
  unfold ctLogStage at h
  split at h
  · split at h
    · injection h with h2; subst h2; rfl
    · exact Except.noConfusion h
  · injection h with h2; subst h2; rfl

theorem tsaStage_identities {c : VerifyAttestationCommand} {w : World}
    {co co2 : CheckOpts} (h : tsaStage c w co = .ok co2) :
    co2.Identities = co.Identities := by
  unfold tsaStage at h
  split at h
  · split at h
    · injection h with h2; subst h2; rfl
    · exact Except.noConfusion h
  · injection h with h2; subst h2; rfl

theorem tlogStage_identities {c : VerifyAttestationCommand} {w : World}
    {co co2 : CheckOpts} (h : tlogStage c w co = .ok co2) :
    co2.Identities = co.Identities := by
  unfold tlogStage at h
  split at h
  · split at h
    · exact Except.noConfusion h
    · rename_i coA heq
      have hA : coA.Identities = co.Identities := by
        split at heq
        · split at heq
          · injection heq with h2; subst h2; rfl
          · exact Except.noConfusion heq
        · injection heq with h2; subst h2; rfl
      split at h
      · split at h
        · injection h with h2; subst h2; exact hA
        · exact Except.noConfusion h
      · injection h with h2; subst h2; exact hA
  · injection h with h2; subst h2; rfl

theorem keylessCertsStage_identities {c : VerifyAttestationCommand} {w : World}
    {co co2 : CheckOpts} (h : keylessCertsStage c w co = .ok co2) :
    co2.Identities = co.Identities := by
  unfold keylessCertsStage at h
  split at h
  · split at h
    · injection h with h2; subst h2; rfl
    · exact Except.noConfusion h
  · injection h with h2; subst h2; rfl

theorem resolveTrust_identities_of_keyRef {c : VerifyAttestationCommand} {w : World}
    {co1 : CheckOpts} (hk : c.KeyRef ≠ "")
    (h : resolveTrustAndCorroboration c w = .ok co1) : co1.Identities = [] := by
  unfold resolveTrustAndCorroboration at h
  split at h
  · exact Except.noConfusion h
  · simp only [identitiesStep, if_neg hk] at h
    split at h
    · exact Except.noConfusion h
    · split at h
      · exact Except.noConfusion h
      · rename_i coA heqA
        split at h
        · exact Except.noConfusion h
        · rename_i coB heqB
          split at h
          · exact Except.noConfusion h
          · rename_i coC heqC
            split at h
            · exact Except.noConfusion h
            · rename_i coD heqD
              split at h
              · exact Except.noConfusion h
              · rename_i coE heqE
                calc co1.Identities
                    = coE.Identities := keylessCertsStage_identities h
                  _ = coD.Identities := tlogStage_identities heqE
                  _ = coC.Identities := tsaStage_identities heqD
                  _ = coB.Identities := ctLogStage_identities heqC
                  _ = coA.Identities := bundleFormatStage_identities heqB
                  _ = (initialOpts c w []).Identities := trustedRootStage_identities heqA
                  _ = [] := rfl

/-- C4: for every configuration that selects both an explicit key reference
and a hardware (security) key, `Exec` fails with the key-parse configuration
error, for every world (so the result does not depend on any external call:
no network or registry input is consulted) and for every non-empty image
list (so no artifact is processed). -/
theorem c4_key_and_sk_fail_before_io (c : VerifyAttestationCommand) (w : World)
    (img : String) (imgs : List String) (hk : c.KeyRef ≠ "") (hs : c.Sk = true) :
    Exec c w (img :: imgs) = .configError .keyParse := by
  apply exec_configError_of_resolveTrust
  have hb : (c.KeyRef != "") = true := by simpa [bne_iff_ne] using hk
  simp [resolveTrustAndCorroboration, NOf, hb, hs]

/-- Witness for C4 at a concrete input: explicit key `cosign.pub` together
with the hardware-key flag. -/
theorem c4_key_and_sk_fail_before_io_witness :
    Exec c4Cmd okWorld ["img"] = .configError .keyParse :=
  c4_key_and_sk_fail_before_io c4Cmd okWorld "img" [] (by decide) (by decide)

/-- C10: for every configuration with a non-empty explicit key reference,
the identity options are never resolved — the configuration phase is
independent of the identity-resolution oracle, even of its outright
failure — and the acceptable-identity set carried by the resulting
`CheckOpts` is empty. -/
theorem c10_explicit_key_skips_identities (c : VerifyAttestationCommand) (w : World)
    (ids : Option (List Identity)) (hk : c.KeyRef ≠ "") :
    buildCheckOpts c { w with identitiesResult := ids } = buildCheckOpts c w ∧
    ∀ co, buildCheckOpts c w = .ok co → co.Identities = [] := by
  constructor
  · simp only [buildCheckOpts, resolveTrustAndCorroboration, identitiesStep, if_neg hk]
    rfl
  · intro co h
    unfold buildCheckOpts at h
    split at h
    · exact Except.noConfusion h
    · rename_i co1 hr
      split at h
      · exact Except.noConfusion h
      · rename_i t hv
        injection h with h2
        subst h2
        have h3 := resolveTrust_identities_of_keyRef hk hr
        simpa using h3

/-- Witness for C10 at a concrete input: explicit key `cosign.pub`, with an
identity-resolution oracle that outright fails. -/
theorem c10_explicit_key_skips_identities_witness :
    buildCheckOpts c10Cmd { okWorld with identitiesResult := none } =
      buildCheckOpts c10Cmd okWorld ∧
    ∀ co, buildCheckOpts c10Cmd okWorld = .ok co → co.Identities = [] :=
  c10_explicit_key_skips_identities c10Cmd okWorld none (by decide)

/-- C1 counterexample: the claim says that with a distributed bundle
available and exactly one explicit override (here the TSA chain path), the
CT-log keys still come from the bundle — i.e. suppression is
per-component.  In the code, any single override nils the entire trusted
material (lines 107-115), so the resolved context retains no bundle at all
(`TrustedMaterial = none`) and the CT-log keys are fetched from the
individual TUF targets instead, while only the TSA component comes from
the explicit file. -/
theorem c1_counterexample :
    okWorld.tufTrustedRoot = some ⟨0⟩ ∧
    (buildCheckOpts c1Cmd okWorld).toOption.map
        (fun co => (co.TrustedMaterial, co.CTLogPubKeys, co.TSACerts)) =
      some (none, some CTLogKeys.fromTufTargets, some (TSACertSource.fromFile "tsa.pem")) :=
  ⟨rfl, rfl⟩

/-- C2 counterexample: the claim says a failure on one image reference does
not affect the processing of the others.  In the code the loop returns the
error immediately: with images `[bad, after]`, the failure on `bad` aborts
the run with no result for `after`, even though `after` alone verifies
successfully. -/
theorem c2_counterexample :
    Exec c2Cmd c2World ["bad", "after"] = .run [] (some (.verifyErr "bad")) ∧
    Exec c2Cmd c2World ["after"] = .run [⟨[recT], true, true⟩] none :=
  ⟨rfl, rfl⟩

/-- C3 counterexample: the claim says every policy of both sets is
evaluated against every matched payload, so one run reports every
violation.  With one CUE policy and one Rego policy that both reject the
single matched payload, the code reports exactly one validation error (the
CUE one) because the CUE failure short-circuits past the Rego set for that
payload. -/
theorem c3_counterexample :
    Exec c3Cmd c3World ["img"] = .run [] (some (.policyValidationFailed 1)) ∧
    c3World.cueValidate ["a.cue"] "p" = some ⟨"cue violation"⟩ ∧
    c3World.regoValidate ["b.rego"] "p" = [⟨"rego violation"⟩] :=
  ⟨rfl, rfl, rfl⟩

/-- C6 counterexample: the claim says that with the new bundle format and
no resolved trust root, resolution fails with the missing-trust-root
error.  With a forbidden override also set (an explicit certificate
chain), the trusted material is suppressed to `none`, yet the run fails
with the unsupported-option error for the chain, not the missing-trust-root
error, because the unsupported-option check runs first. -/
theorem c6_counterexample :
    resolvedTrustedMaterial c6Cmd okWorld = none ∧
    Exec c6Cmd okWorld ["img"] = .configError .certChainWithNewBundle ∧
    ExecError.certChainWithNewBundle ≠ ExecError.missingTrustRoot :=
  ⟨rfl, rfl, by decide⟩

/-- C9 counterexample: the claim says `fulcioVerified` is true exactly when
the trust anchor is certificate-based rather than an explicit key.  A
certificate-reference anchor is certificate-based, yet its branch installs
an explicit signature verifier, so the verdict carries
`fulcioVerified = false`. -/
theorem c9_counterexample :
    certificateBased (anchorKindOf c9Cmd) = true ∧
    Exec c9Cmd c2World ["img"] = .run [⟨[recT], true, false⟩] none :=
  ⟨rfl, rfl⟩

theorem runImages_length_of_ok {f : String → Except ExecError ImageResult} :
    ∀ xs : List String, (∀ x ∈ xs, ∃ r, f x = Except.ok r) →
      (runImages f xs).1.length = xs.length := by
  intro xs
  induction xs with
  | nil => intro _; rfl
  | cons x rest ih =>
    intro h
    obtain ⟨r, hr⟩ := h x (List.mem_cons_self x rest)
    have ih2 := ih (fun z hz => h z (List.mem_cons_of_mem x hz))
    simp [runImages, hr, ih2]

theorem runImages_append_error {f : String → Except ExecError ImageResult}
    {y : String} {e : ExecError} (hy : f y = .error e) :
    ∀ xs : List String, (∀ x ∈ xs, ∃ r, f x = Except.ok r) → ∀ ys : List String,
      runImages f (xs ++ y :: ys) = ((runImages f xs).1, some e) := by
  intro xs
  induction xs with
  | nil => intro _ ys; simp [runImages, hy]
  | cons x rest ih =>
    intro h ys
    obtain ⟨r, hr⟩ := h x (List.mem_cons_self x rest)
    have ih2 := ih (fun z hz => h z (List.mem_cons_of_mem x hz)) ys
    simp [runImages, hr, ih2]

/-- C2 (amended): image references are processed in order and the run is
fail-fast across references: when every reference before `y` succeeds and
`y` fails, the whole invocation aborts with the error of `y`; the results
of the references before `y` are the ones already emitted, and the
references after `y` are never processed (the outcome is identical for
any tail). -/
theorem c2_amended (c : VerifyAttestationCommand) (w : World) (co : CheckOpts)
    (hco : buildCheckOpts c w = .ok co) (xs : List String) (y : String) (e : ExecError)
    (hxs : ∀ x ∈ xs, ∃ r, verifyOneImage c w co (fulcioVerifiedFlag co) x = Except.ok r)
    (hy : verifyOneImage c w co (fulcioVerifiedFlag co) y = .error e) (ys ys' : List String) :
    Exec c w (xs ++ y :: ys) = Exec c w (xs ++ y :: ys') ∧
    Exec c w (xs ++ y :: ys) =
      .run (runImages (verifyOneImage c w co (fulcioVerifiedFlag co)) xs).1 (some e) ∧
    (runImages (verifyOneImage c w co (fulcioVerifiedFlag co)) xs).1.length = xs.length := by
  have h1 := runImages_append_error hy xs hxs ys
  have h2 := runImages_append_error hy xs hxs ys'
  refine ⟨?_, ?_, runImages_length_of_ok xs hxs⟩
  · simp [Exec, hco, h1, h2]
  · simp [Exec, hco, h1]

/-- Witness for C2 (amended) at a concrete input: reference `good`
succeeds, `bad` fails, `after` is never processed. -/
theorem c2_amended_witness :
    Exec c2Cmd c2World (["good"] ++ "bad" :: ["after"]) =
        Exec c2Cmd c2World (["good"] ++ "bad" :: []) ∧
    Exec c2Cmd c2World (["good"] ++ "bad" :: ["after"]) =
      .run (runImages (verifyOneImage c2Cmd c2World c2Co (fulcioVerifiedFlag c2Co)) ["good"]).1
        (some (.verifyErr "bad")) ∧
    (runImages (verifyOneImage c2Cmd c2World c2Co (fulcioVerifiedFlag c2Co)) ["good"]).1.length =
      (["good"] : List String).length := by
  refine c2_amended c2Cmd c2World c2Co rfl ["good"] "bad" (ExecError.verifyErr "bad") ?_ rfl
    ["after"] []
  intro x hx
  simp only [List.mem_singleton] at hx
  subst hx
  exact ⟨⟨[recT], true, true⟩, rfl⟩

theorem processRecords_unmatched (w : World) (requested : String) (cues regos : List String) :
    ∀ records : List Record, (∀ r ∈ records, r.convertible = true) →
      (∀ r ∈ records, (r.predType == requested) = false) →
      processRecords w requested cues regos records =
        .ok ([], [], records.map Record.predType) := by
  intro records
  induction records with
  | nil => intro _ _; rfl
  | cons r rest ih =>
    intro hc hm
    have hr1 := hc r (List.mem_cons_self r rest)
    have hr2 := hm r (List.mem_cons_self r rest)
    have ihr := ih (fun s hs => hc s (List.mem_cons_of_mem r hs))
      (fun s hs => hm s (List.mem_cons_of_mem r hs))
    simp [processRecords, AttestationToPayloadJSON, hr1, hr2, ihr]

/-- C5: whenever the verified records all convert and none of them carries
the requested predicate type (empty intersection), the run aborts with the
predicate-type-mismatch error listing every predicate type actually
observed, an outcome distinct from every policy-validation failure. -/
theorem c5_predicate_mismatch_reported (c : VerifyAttestationCommand) (w : World)
    (co : CheckOpts) (img : String) (records : List Record) (bv : Bool)
    (cues regos : List String)
    (hco : buildCheckOpts c w = .ok co)
    (hloc : c.LocalImage = true)
    (hv : w.verifyLocalAtt co img = some (records, bv))
    (hpart : partitionPolicies c.Policies = .ok (cues, regos))
    (hconv : ∀ r ∈ records, r.convertible = true)
    (hmm : ∀ r ∈ records, (r.predType == c.PredicateType) = false) :
    Exec c w [img] =
      .run [] (some (.predicateTypeMismatch c.PredicateType (records.map Record.predType))) ∧
    ∀ n, ExecError.predicateTypeMismatch c.PredicateType (records.map Record.predType) ≠
      ExecError.policyValidationFailed n := by
  constructor
  · have hpr := processRecords_unmatched w c.PredicateType cues regos records hconv hmm
    simp [Exec, hco, runImages, verifyOneImage, hloc, hv, hpart, hpr]
  · intro n
    simp

/-- Witness for C5 at a concrete input: records of predicate types `a` and
`b`, requested type `c`, reported as mismatch listing `[a, b]`. -/
theorem c5_predicate_mismatch_reported_witness :
    Exec c5Cmd c5World ["img"] =
      .run [] (some (.predicateTypeMismatch "c" ["a", "b"])) ∧
    ∀ n, ExecError.predicateTypeMismatch "c" ["a", "b"] ≠
      ExecError.policyValidationFailed n :=
  c5_predicate_mismatch_reported c5Cmd c5World c2Co "img"
    [⟨"a", "pa", true⟩, ⟨"b", "pb", true⟩] true [] [] rfl rfl rfl rfl
    (by decide) (by decide)

theorem partitionPolicies_error {p : String} :
    ∀ ps : List String, p ∈ ps → filepathExt p ≠ ".cue" → filepathExt p ≠ ".rego" →
      partitionPolicies ps = .error .invalidPolicyFormat := by
  intro ps
  induction ps with
  | nil => intro h _ _; exact absurd h (List.not_mem_nil p)
  | cons q rest ih =>
    intro hmem h1 h2
    rcases List.mem_cons.mp hmem with hq | hrest
    · subst hq
      simp [partitionPolicies, h1, h2]
    · have hrec := ih hrest h1 h2
      by_cases hq1 : filepathExt q = ".rego"
      · simp [partitionPolicies, hq1, hrec]
      · by_cases hq2 : filepathExt q = ".cue"
        · simp [partitionPolicies, hq1, hq2, hrec]
        · simp [partitionPolicies, hq1, hq2]

/-- C8: a configured policy path whose extension is neither `.cue` nor
`.rego` makes the run fail with the policy-format error as soon as the
policy gate is reached (the first reference whose records were fetched),
with no result emitted — the policy is never silently skipped. -/
theorem c8_bad_policy_extension_fails (c : VerifyAttestationCommand) (w : World)
    (co : CheckOpts) (img : String) (imgs : List String) (records : List Record) (bv : Bool)
    (p : String)
    (hco : buildCheckOpts c w = .ok co)
    (hloc : c.LocalImage = true)
    (hv : w.verifyLocalAtt co img = some (records, bv))
    (hp : p ∈ c.Policies)
    (h1 : filepathExt p ≠ ".cue") (h2 : filepathExt p ≠ ".rego") :
    Exec c w (img :: imgs) = .run [] (some .invalidPolicyFormat) := by
  have hpart := partitionPolicies_error c.Policies hp h1 h2
  simp [Exec, hco, runImages, verifyOneImage, hloc, hv, hpart]

/-- Witness for C8 at a concrete input: policy `policy.yaml`. -/
theorem c8_bad_policy_extension_fails_witness :
    Exec c8Cmd c2World ["img"] = .run [] (some .invalidPolicyFormat) :=
  c8_bad_policy_extension_fails c8Cmd c2World c2Co "img" [] [recT] true
    "policy.yaml" rfl rfl rfl (by decide) (by decide) (by decide)

theorem resolveVerifier_none_iff {c : VerifyAttestationCommand} {w : World}
    {tm : Option TrustRoot} {v : Option Verifier} {sct : Option String} {fl : Bool}
    (h : resolveVerifier c w tm = Except.ok (v, sct, fl)) :
    v = none ↔ (c.KeyRef = "" ∧ c.Sk = false ∧ c.CertRef = "") := by
  unfold resolveVerifier at h
  split at h
  · rename_i h1
    rw [bne_iff_ne] at h1
    split at h
    · simp only [Except.ok.injEq, Prod.mk.injEq] at h
      simp [← h.1, h1]
    · exact Except.noConfusion h
  · rename_i h1
    rw [bne_iff_ne, not_ne_iff] at h1
    split at h
    · rename_i h2
      split at h
      · split at h
        · simp only [Except.ok.injEq, Prod.mk.injEq] at h
          simp [← h.1, h2]
        · exact Except.noConfusion h
      · exact Except.noConfusion h
    · rename_i h2
      have hs : c.Sk = false := by simpa using h2
      split at h
      · rename_i h3
        rw [bne_iff_ne] at h3
        split at h
        · simp only [Except.ok.injEq, Prod.mk.injEq] at h
          simp [← h.1, h3]
        · exact Except.noConfusion h
      · rename_i h3
        rw [bne_iff_ne, not_ne_iff] at h3
        split at h
        · split at h
          · simp only [Except.ok.injEq, Prod.mk.injEq] at h
            simp [← h.1, h1, hs, h3]
          · exact Except.noConfusion h
        · simp only [Except.ok.injEq, Prod.mk.injEq] at h
          simp [← h.1, h1, hs, h3]

/-- C9 (amended): the `fulcioVerified` flag is true exactly when no
explicit signature verifier was installed, i.e. exactly when neither an
explicit key, nor a hardware key, nor a certificate reference was
supplied; in particular it is `false` for the certificate-reference
anchor even though that anchor is certificate-based. -/
theorem c9_amended (c : VerifyAttestationCommand) (w : World) (co : CheckOpts)
    (h : buildCheckOpts c w = .ok co) :
    fulcioVerifiedFlag co = true ↔ (c.KeyRef = "" ∧ c.Sk = false ∧ c.CertRef = "") := by
  unfold buildCheckOpts at h
  split at h
  · exact Except.noConfusion h
  · rename_i co1 hr
    split at h
    · exact Except.noConfusion h
    · rename_i v sct fl hv
      injection h with h2
      subst h2
      have hiff := resolveVerifier_none_iff hv
      simpa [fulcioVerifiedFlag, Option.isNone_iff_eq_none] using hiff

/-- Witness for C9 (amended) at a concrete input: the keyless
configuration yields a `CheckOpts` with no explicit verifier, so the flag
is true. -/
theorem c9_amended_witness :
    fulcioVerifiedFlag c2Co = true ↔
      (c2Cmd.KeyRef = "" ∧ c2Cmd.Sk = false ∧ c2Cmd.CertRef = "") :=
  c9_amended c2Cmd c2World c2Co rfl

/-- C1 (amended): when a distributed trust-root bundle is available and
the TSA chain path is the single explicit override, suppression is
all-or-nothing: the entire bundle is dropped from the resolved context
(`TrustedMaterial = none`), the TSA certificates come from the explicit
file, and the remaining corroboration components are fetched individually
(CT-log keys from the TUF targets, Rekor keys fetched afresh) rather than
taken from the bundle. -/
theorem c1_amended (c : VerifyAttestationCommand) (w : World)
    (hkr : c.KeyRef = "") (hsk : c.Sk = false) (hcr : c.CertRef = "")
    (hcc : c.CertChain = "") (hcar : c.CARoots = "") (hcai : c.CAIntermediates = "")
    (htrp : c.TrustedRootPath = "") (hnbf : c.NewBundleFormat = false)
    (hisct : c.IgnoreSCT = false) (hitl : c.IgnoreTlog = false) (hru : c.RekorURL = "")
    (htsa : c.TSACertChainPath ≠ "")
    (he1 : w.envCTLogPubKeyFile = "") (he2 : w.envRootFile = "")
    (he3 : w.envRekorPublicKey = "") (he4 : w.envTSACertificateFile = "")
    (hbundle : w.tufTrustedRoot.isSome = true)
    (hids : w.identitiesResult.isSome = true) (hcl : w.clientOptsOk = true)
    (hctf : w.ctLogFetchOk = true) (htsf : w.tsaFetchOk = true)
    (hrp : w.rekorPubsOk = true) (hlc : w.loadCertsOk = true) :
    (buildCheckOpts c w).toOption.map
        (fun co => (co.TrustedMaterial, co.CTLogPubKeys, co.TSACerts, co.RekorPubKeys)) =
      some (none, some CTLogKeys.fromTufTargets,
            some (TSACertSource.fromFile c.TSACertChainPath), true) := by
  obtain ⟨ids, hids2⟩ := Option.isSome_iff_exists.mp hids
  have hbne : (c.TSACertChainPath != "") = true := by simpa [bne_iff_ne] using htsa
  simp [buildCheckOpts, resolveTrustAndCorroboration, identitiesStep, initialOpts,
        trustedRootStage, bundleFormatStage, ctLogStage, tsaStage, tlogStage,
        keylessCertsStage, resolveVerifier, shouldVerifySCT, keylessVerification,
        GetCTLogPubs, GetTSACerts, suppressBundle, explicitPathsCount, anyEnvOverride,
        resolvedTrustedMaterial, NOf, hkr, hsk, hcr, hcc, hcar, hcai, htrp, hnbf,
        hisct, hitl, hru, hbne, he1, he2, he3, he4, hids2, hcl, hctf, htsf, hrp, hlc]
  exact ⟨_, rfl, rfl, rfl, rfl, rfl⟩

/-- Witness for C1 (amended) at a concrete input: bundle available, TSA
chain path `tsa.pem` the only override. -/
theorem c1_amended_witness :
    (buildCheckOpts c1Cmd okWorld).toOption.map
        (fun co => (co.TrustedMaterial, co.CTLogPubKeys, co.TSACerts, co.RekorPubKeys)) =
      some (none, some CTLogKeys.fromTufTargets,
            some (TSACertSource.fromFile c1Cmd.TSACertChainPath), true) :=
  c1_amended c1Cmd okWorld rfl rfl rfl rfl rfl rfl rfl rfl rfl rfl rfl (by decide)
    rfl rfl rfl rfl rfl rfl rfl rfl rfl rfl rfl

theorem trustedRootStage_none {c : VerifyAttestationCommand} {w : World} {co : CheckOpts}
    (htrp : c.TrustedRootPath = "") (hmat : resolvedTrustedMaterial c w = none)
    (hcm : co.TrustedMaterial = none) :
    ∃ co1, trustedRootStage c w co = .ok co1 ∧ co1.TrustedMaterial = none := by
  unfold trustedRootStage
  by_cases hsb : suppressBundle c w = true
  · exact ⟨co, by simp [htrp, hsb], hcm⟩
  · have htuf : w.tufTrustedRoot = none := by
      unfold resolvedTrustedMaterial at hmat
      simpa [hsb] using hmat
    exact ⟨{ co with TrustedMaterial := none }, by simp [htrp, hsb, htuf], rfl⟩

theorem trustedRootStage_ok_exists {c : VerifyAttestationCommand} {w : World}
    (co : CheckOpts)
    (htrl : c.TrustedRootPath = "" ∨ (w.trustedRootFromPath c.TrustedRootPath).isSome = true) :
    ∃ co1, trustedRootStage c w co = .ok co1 := by
  unfold trustedRootStage
  by_cases htrp : c.TrustedRootPath = ""
  · by_cases hsb : suppressBundle c w = true
    · exact ⟨co, by simp [htrp, hsb]⟩
    · exact ⟨{ co with TrustedMaterial := w.tufTrustedRoot }, by simp [htrp, hsb]⟩
  · have hs : (w.trustedRootFromPath c.TrustedRootPath).isSome = true := by
      rcases htrl with h | h
      · exact absurd h htrp
      · exact h
    obtain ⟨tr, htr⟩ := Option.isSome_iff_exists.mp hs
    refine ⟨{ co with TrustedMaterial := some tr }, ?_⟩
    have hb : (c.TrustedRootPath != "") = true := by simpa [bne_iff_ne] using htrp
    simp [hb, htr]

theorem nof_keySk_le_one {c : VerifyAttestationCommand}
    (hks : ¬(c.KeyRef ≠ "" ∧ c.Sk = true)) :
    ¬(NOf [c.KeyRef != "", c.Sk] > 1) := by
  unfold NOf
  by_cases hk : c.KeyRef = ""
  · cases hs : c.Sk <;> simp [hk]
  · have hs : c.Sk = false := by
      cases hs2 : c.Sk
      · rfl
      · exact absurd ⟨hk, hs2⟩ hks
    simp [hs, bne_iff_ne, hk]

theorem identitiesStep_ok_exists {c : VerifyAttestationCommand} {w : World}
    (hid : c.KeyRef = "" → w.identitiesResult.isSome = true) :
    ∃ ids, identitiesStep c w = .ok ids := by
  by_cases hk : c.KeyRef = ""
  · obtain ⟨ids, hids⟩ := Option.isSome_iff_exists.mp (hid hk)
    exact ⟨ids, by simp [identitiesStep, hk, hids]⟩
  · exact ⟨[], by simp [identitiesStep, hk]⟩

/-- C6 (amended): with the new-bundle-format mode enabled, no trusted-root
path given, no trusted material resolved, and none of the forbidden
explicit overrides set (otherwise the unsupported-option error is reported
first), the run aborts with the missing-trust-root error before any
artifact reference is processed — the conclusion holds for every image
list, so no artifact is consulted. -/
theorem c6_amended (c : VerifyAttestationCommand) (w : World) (img : String)
    (imgs : List String)
    (hnbf : c.NewBundleFormat = true)
    (hck : checkSigstoreBundleUnsupportedOptions c = none)
    (htrp : c.TrustedRootPath = "")
    (hmat : resolvedTrustedMaterial c w = none)
    (hks : ¬(c.KeyRef ≠ "" ∧ c.Sk = true))
    (hid : c.KeyRef = "" → w.identitiesResult.isSome = true)
    (hcl : w.clientOptsOk = true) :
    Exec c w (img :: imgs) = .configError .missingTrustRoot := by
  apply exec_configError_of_resolveTrust
  obtain ⟨ids, hids⟩ := identitiesStep_ok_exists hid
  obtain ⟨co1, h1, hTM⟩ := trustedRootStage_none htrp hmat
    (show (initialOpts c w ids).TrustedMaterial = none by simpa [initialOpts] using hmat)
  have hbf : bundleFormatStage c co1 = .error .missingTrustRoot := by
    simp [bundleFormatStage, hnbf, hck, hTM]
  unfold resolveTrustAndCorroboration
  rw [if_neg (nof_keySk_le_one hks)]
  simp [hids, hcl, h1, hbf]

/-- Witness for C6 (amended) at a concrete input: new bundle format, no
overrides, TUF trusted-root fetch failed. -/
theorem c6_amended_witness :
    Exec c6wCmd c6wWorld ["img"] = .configError .missingTrustRoot :=
  c6_amended c6wCmd c6wWorld "img" [] rfl rfl rfl rfl (by decide) (fun _ => rfl) rfl

/-- C7: with the new-bundle-format mode enabled and any forbidden explicit
override set (certificate reference, certificate chain, CA roots or
intermediates, TSA chain path), the run aborts — before any artifact is
processed — with the unsupported-option error produced by
`checkSigstoreBundleUnsupportedOptions`, an error that names an option
actually set; in particular a certificate reference always yields the
certificate-reference error. -/
theorem c7_unsupported_overrides (c : VerifyAttestationCommand) (w : World) (img : String)
    (imgs : List String)
    (hnbf : c.NewBundleFormat = true)
    (hforb : c.CertRef ≠ "" ∨ c.CertChain ≠ "" ∨ c.CARoots ≠ "" ∨
      c.CAIntermediates ≠ "" ∨ c.TSACertChainPath ≠ "")
    (hks : ¬(c.KeyRef ≠ "" ∧ c.Sk = true))
    (hid : c.KeyRef = "" → w.identitiesResult.isSome = true)
    (hcl : w.clientOptsOk = true)
    (htrl : c.TrustedRootPath = "" ∨ (w.trustedRootFromPath c.TrustedRootPath).isSome = true) :
    ∃ e, checkSigstoreBundleUnsupportedOptions c = some e ∧
      Exec c w (img :: imgs) = .configError e ∧ namesOffendingOption e c ∧
      (c.CertRef ≠ "" → e = .certRefWithNewBundle) := by
  have hce : ∃ e, checkSigstoreBundleUnsupportedOptions c = some e ∧
      namesOffendingOption e c ∧ (c.CertRef ≠ "" → e = .certRefWithNewBundle) := by
    by_cases h1 : c.CertRef = ""
    · by_cases h2 : c.CertChain = ""
      · by_cases h3 : c.CARoots = ""
        · by_cases h4 : c.CAIntermediates = ""
          · have h5 : c.TSACertChainPath ≠ "" := by tauto
            exact ⟨.tsaPathWithNewBundle,
              by simp [checkSigstoreBundleUnsupportedOptions, h1, h2, h3, h4, h5],
              h5, fun hc => absurd h1 hc⟩
          · exact ⟨.caRootsWithNewBundle,
              by simp [checkSigstoreBundleUnsupportedOptions, h1, h2, h3, h4],
              Or.inr h4, fun hc => absurd h1 hc⟩
        · exact ⟨.caRootsWithNewBundle,
            by simp [checkSigstoreBundleUnsupportedOptions, h1, h2, h3],
            Or.inl h3, fun hc => absurd h1 hc⟩
      · exact ⟨.certChainWithNewBundle,
          by simp [checkSigstoreBundleUnsupportedOptions, h1, h2],
          h2, fun hc => absurd h1 hc⟩
    · exact ⟨.certRefWithNewBundle,
        by simp [checkSigstoreBundleUnsupportedOptions, h1],
        h1, fun _ => rfl⟩
  obtain ⟨e, hcksome, hname, hcert⟩ := hce
  refine ⟨e, hcksome, ?_, hname, hcert⟩
  apply exec_configError_of_resolveTrust
  obtain ⟨ids, hids⟩ := identitiesStep_ok_exists hid
  obtain ⟨co1, h1⟩ := trustedRootStage_ok_exists (initialOpts c w ids) htrl
  have hbf : bundleFormatStage c co1 = .error e := by
    simp [bundleFormatStage, hnbf, hcksome]
  unfold resolveTrustAndCorroboration
  rw [if_neg (nof_keySk_le_one hks)]
  simp [hids, hcl, h1, hbf]

/-- Witness for C7 at a concrete input: new bundle format plus an explicit
certificate chain, yielding the chain-specific unsupported-option error. -/
theorem c7_unsupported_overrides_witness :
    ∃ e, checkSigstoreBundleUnsupportedOptions c6Cmd = some e ∧
      Exec c6Cmd okWorld ["img"] = .configError e ∧ namesOffendingOption e c6Cmd ∧
      (c6Cmd.CertRef ≠ "" → e = .certRefWithNewBundle) :=
  c7_unsupported_overrides c6Cmd okWorld "img" [] rfl
    (Or.inr (Or.inl (by decide))) (by decide) (fun _ => rfl) rfl (Or.inl rfl)

/-- C3 (amended): the policy gate collects validation errors across the
whole record list (no record stops the loop), accepts exactly the records
that match the requested predicate type and pass every configured policy
of both sets, and records every observed predicate type; however, within
one payload a CUE failure contributes its single error and short-circuits
the Rego set for that payload (see `recordErrors`), so not every policy is
evaluated against every matched payload. -/
theorem c3_amended (w : World) (requested : String) (cues regos : List String) :
    ∀ (records checked : List Record) (ve : List PolicyError) (types : List String),
      processRecords w requested cues regos records = .ok (checked, ve, types) →
      ve = (records.map (recordErrors w requested cues regos)).flatten ∧
      checked = records.filter (recordAccepted w requested cues regos) ∧
      types = records.map Record.predType := by
  intro records
  induction records with
  | nil =>
    intro checked ve types h
    injection h with h2
    simp only [Prod.mk.injEq] at h2
    obtain ⟨ha, hb, hc⟩ := h2
    subst ha; subst hb; subst hc
    simp
  | cons r rest ih =>
    intro checked ve types h
    unfold processRecords at h
    cases hA : AttestationToPayloadJSON requested r with
    | none =>
      simp only [hA] at h
      exact Except.noConfusion h
    | some pg =>
      obtain ⟨payload, gotType⟩ := pg
      cases hrec : processRecords w requested cues regos rest with
      | error e =>
        simp only [hA, hrec] at h
        exact Except.noConfusion h
      | ok t =>
        obtain ⟨checked0, ve0, types0⟩ := t
        simp only [hA, hrec] at h
        obtain ⟨ih1, ih2, ih3⟩ := ih checked0 ve0 types0 hrec
        have hc : r.convertible = true := by
          by_contra hc2
          rw [Bool.not_eq_true] at hc2
          unfold AttestationToPayloadJSON at hA
          rw [hc2] at hA
          simp at hA
        have hfields : payload = (if (r.predType == requested) = true then r.payload else "") ∧
            gotType = r.predType := by
          unfold AttestationToPayloadJSON at hA
          rw [if_pos hc] at hA
          injection hA with hA2
          simp only [Prod.mk.injEq] at hA2
          exact ⟨hA2.1.symm, hA2.2.symm⟩
        obtain ⟨hpay, hgot⟩ := hfields
        subst hpay; subst hgot
        by_cases hm : (r.predType == requested) = true
        · rw [if_pos hm] at h
          by_cases hp0 : r.payload.length = 0
          · rw [if_pos hp0] at h
            injection h with h2
            simp only [Prod.mk.injEq] at h2
            obtain ⟨ha, hb, hcc⟩ := h2
            subst ha; subst hb; subst hcc
            refine ⟨?_, ?_, ?_⟩
            · simp [recordErrors, hm, hp0, ih1]
            · simp [recordAccepted, hm, hp0, ih2]
            · simp [ih3]
          · rw [if_neg hp0] at h
            cases hcue : (if cues.isEmpty then none else w.cueValidate cues r.payload) with
            | some ce =>
              have hcue2 : (if cues = [] then none else w.cueValidate cues r.payload) =
                  some ce := by simpa [List.isEmpty_iff] using hcue
              rw [hcue] at h
              injection h with h2
              simp only [Prod.mk.injEq] at h2
              obtain ⟨ha, hb, hcc⟩ := h2
              subst ha; subst hb; subst hcc
              refine ⟨?_, ?_, ?_⟩
              · simp [recordErrors, hm, hp0, hcue2, ih1]
              · simp [recordAccepted, hm, hp0, hcue2, ih2, bne_iff_ne]
              · simp [ih3]
            | none =>
              have hcue2 : (if cues = [] then none else w.cueValidate cues r.payload) =
                  none := by simpa [List.isEmpty_iff] using hcue
              simp only [hcue] at h
              by_cases hreg :
                  (if regos.isEmpty then [] else w.regoValidate regos r.payload).isEmpty = true
              · have hreg2 : (if regos = [] then [] else w.regoValidate regos r.payload) =
                    [] := by simpa [List.isEmpty_iff] using List.isEmpty_iff.mp hreg
                rw [if_pos hreg] at h
                injection h with h2
                simp only [Prod.mk.injEq] at h2
                obtain ⟨ha, hb, hcc⟩ := h2
                subst ha; subst hb; subst hcc
                refine ⟨?_, ?_, ?_⟩
                · simp [recordErrors, hm, hp0, hcue2, hreg2, ih1]
                · simp [recordAccepted, hm, hp0, hcue2, hreg2, ih2, bne_iff_ne]
                · simp [ih3]
              · have hreg2 : ¬((if regos = [] then [] else w.regoValidate regos r.payload) =
                    []) := by simpa [List.isEmpty_iff] using hreg
                rw [if_neg hreg] at h
                injection h with h2
                simp only [Prod.mk.injEq] at h2
                obtain ⟨ha, hb, hcc⟩ := h2
                subst ha; subst hb; subst hcc
                refine ⟨?_, ?_, ?_⟩
                · simp [recordErrors, hm, hp0, hcue2, ih1, List.isEmpty_iff]
                · simp [recordAccepted, hm, hp0, hcue2, hreg2, ih2, bne_iff_ne]
                · simp [ih3]
        · have hm2 : (r.predType == requested) = false := by
            rwa [Bool.not_eq_true] at hm
          rw [if_neg hm] at h
          rw [if_pos String.length_empty] at h
          injection h with h2
          simp only [Prod.mk.injEq] at h2
          obtain ⟨ha, hb, hcc⟩ := h2
          subst ha; subst hb; subst hcc
          refine ⟨?_, ?_, ?_⟩
          · simp [recordErrors, hm2, ih1]
          · simp [recordAccepted, hm2, ih2]
          · simp [ih3]

/-- Witness for C3 (amended) at a concrete input: one matched record, a
CUE policy that rejects it and a Rego policy that would also reject it —
the collected error set is exactly the CUE error, the record is not
accepted, and its predicate type is recorded. -/
theorem c3_amended_witness :
    ([⟨"cue violation"⟩] : List PolicyError) =
        (([recT].map (recordErrors c3World "t" ["a.cue"] ["b.rego"])).flatten) ∧
    ([] : List Record) = [recT].filter (recordAccepted c3World "t" ["a.cue"] ["b.rego"]) ∧
    (["t"] : List String) = [recT].map Record.predType :=
  c3_amended c3World "t" ["a.cue"] ["b.rego"] [recT] [] [⟨"cue violation"⟩] ["t"] rfl

end Cosign
